import Mathlib

/-!
Verification of the SnapFarm plant-disease diagnosis pipeline.

This file gives a shallow embedding, over exact rational arithmetic, of the
decision logic of the repository:

* the heuristic disease mapper simulatePlantDiseaseFromMobileNet and its
  helpers (source: the model-helpers module, src/unnamed/part_010);
* the localStorage-backed history and metrics functions saveDiagnosis,
  saveChatMessage and calculateMetrics
  (source: src/metaboai-react/src/utils/storage.ts);
* the upload validation validateImageFile and handleFileSelect
  (sources: src/unnamed/part_008 and
  src/metaboai-react/src/components/ImageUpload.tsx);
* the fallback behaviour of the Inference component
  (source: src/metaboai-react/src/components/Inference.tsx).

JavaScript numbers are modelled as rationals, so every arithmetic statement
proved here is the ideal-arithmetic counterpart of the floating-point code.
Math.random() is modelled by passing the drawn values explicitly: the
function receives a map assigning to each score key the draw (a rational in
[0,1)) that Math.random() produced when that key was jittered.
-/

namespace ModelHelpers

/-- One entry of the MobileNet classifier output, as consumed by
simulatePlantDiseaseFromMobileNet (part_010, line 175). -/
structure MobileNetPrediction where
  className : String
  probability : ℚ
deriving DecidableEq

/-- One entry of the mapper output: a disease label with a confidence
(part_010, anonymous type Array of label/confidence records). -/
structure Prediction where
  label : String
  confidence : ℚ
deriving DecidableEq

/-- Auxiliary: does the second char list occur at the head of the first. -/
def charsStartWith : List Char → List Char → Bool
  | _, [] => true
  | [], _ :: _ => false
  | a :: as, b :: bs => a = b && charsStartWith as bs

/-- Auxiliary: does the second char list occur anywhere inside the first.
Models the JavaScript String.prototype.includes used at part_010
lines 258-260 and in the bucket matching. -/
def charsContain : List Char → List Char → Bool
  | [], needle => needle.isEmpty
  | a :: as, needle => charsStartWith (a :: as) needle || charsContain as needle

/-- Model of className.includes(keyword). -/
def strIncludes (hay needle : String) : Bool :=
  charsContain hay.toList needle.toList

/-- diseaseIndicators.healthy (part_010, line 187). -/
def healthyWords : List String :=
  ["broccoli", "cabbage", "lettuce", "artichoke", "cauliflower", "spinach", "cucumber"]

/-- diseaseIndicators.vegetation (part_010, line 190). -/
def vegetationWords : List String :=
  ["leaf", "plant", "tree", "flower", "herb", "vegetable"]

/-- diseaseIndicators.blight (part_010, lines 193-197). -/
def blightWords : List String :=
  ["mushroom", "fungus", "mold", "rust", "lichen", "moss",
   "wood", "bark", "log", "stump", "dead", "dry", "brown",
   "soil", "dirt", "compost", "mulch", "decay"]

/-- diseaseIndicators.spots (part_010, lines 200-204). -/
def spotsWords : List String :=
  ["spot", "dot", "stain", "patch", "lesion", "mark",
   "leopard", "cheetah", "dalmatian", "polka", "pattern",
   "camouflage", "military", "texture"]

/-- diseaseIndicators.yellowing (part_010, lines 207-210). -/
def yellowingWords : List String :=
  ["banana", "lemon", "corn", "yellow", "gold", "amber",
   "straw", "hay", "wheat", "grain", "cereal", "pale"]

/-- diseaseIndicators.browning (part_010, lines 213-217). -/
def browningWords : List String :=
  ["brown", "chocolate", "coffee", "wood", "bark", "leather",
   "tobacco", "cinnamon", "rust", "bronze", "copper",
   "dried", "withered", "autumn", "fall"]

/-- diseaseIndicators.damage (part_010, lines 220-224). -/
def damageWords : List String :=
  ["hole", "tear", "crack", "break", "damage", "worn",
   "old", "aged", "weathered", "eroded", "eaten",
   "bite", "chewed", "perforated"]

/-- diseaseIndicators.viral (part_010, lines 227-231). -/
def viralWords : List String :=
  ["fabric", "textile", "pattern", "mosaic", "tile",
   "quilt", "patchwork", "variegated", "mottled",
   "camouflage", "abstract", "art"]

/-- bucket.some(indicator surrounded by className.includes). -/
def matchesBucket (className : String) (bucket : List String) : Bool :=
  bucket.any (fun kw => strIncludes className kw)

/-- The mutable state threaded through the forEach over MobileNet
predictions (part_010, lines 235, 247-250): the specificDiseaseScores
object (modelled as a total map from key strings to scores) together with
the four scalar accumulators. -/
structure SimState where
  scores : String → ℚ
  totalConfidence : ℚ
  healthyIndicators : ℚ
  diseaseIndicatorScore : ℚ
  plantRelatedScore : ℚ

/-- Pointwise update of one key of the score map. -/
def updateScore (s : String → ℚ) (k : String) (f : ℚ → ℚ) : String → ℚ :=
  fun l => if l = k then f (s l) else s l

/-- scores[k] += v. -/
def addScore (s : String → ℚ) (k : String) (v : ℚ) : String → ℚ :=
  updateScore s k (fun x => x + v)

/-- scores[k] *= c. -/
def scaleScore (s : String → ℚ) (k : String) (c : ℚ) : String → ℚ :=
  updateScore s k (fun x => x * c)

/-- Initial specificDiseaseScores (part_010, lines 236-244): every label of
the vocabulary gets a base score, Healthy slightly lower, the two blights
slightly higher. Keys outside the vocabulary are defaulted to 0 (they are
never read back into the output). -/
def initialScores (labels : List String) : String → ℚ := fun label =>
  if label ∈ labels then
    if label = "Healthy" then 0.08
    else if label = "Early Blight" ∨ label = "Late Blight" then 0.12
    else 0.1
  else 0

/-- State before the forEach over MobileNet predictions. -/
def initState (labels : List String) : SimState :=
  ⟨initialScores labels, 0, 0, 0, 0⟩

/-- One iteration of the forEach over mobilenetPredictions
(part_010, lines 252-328), with the score updates applied in source
order. -/
def processPrediction (st : SimState) (pred : MobileNetPrediction) : SimState :=
  let className := pred.className.toLower
  let p := pred.probability
  let totalConfidence := st.totalConfidence + p
  let isPlantRelated :=
    matchesBucket className healthyWords || matchesBucket className vegetationWords ||
    strIncludes className "green" || strIncludes className "leaf" ||
    strIncludes className "plant"
  let plantRelatedScore :=
    if isPlantRelated then st.plantRelatedScore + p else st.plantRelatedScore
  let healthyHit := matchesBucket className healthyWords
  let healthyIndicators :=
    if healthyHit then st.healthyIndicators + p else st.healthyIndicators
  let scores :=
    if healthyHit then addScore st.scores "Healthy" (p * 0.6) else st.scores
  let scores :=
    if matchesBucket className vegetationWords then
      addScore (addScore (addScore (addScore scores "Healthy" (p * 0.2))
        "Early Blight" (p * 0.4)) "Late Blight" (p * 0.3)) "Septoria Leaf Spot" (p * 0.2)
    else scores
  let blightHit := matchesBucket className blightWords
  let diseaseIndicatorScore :=
    if blightHit then st.diseaseIndicatorScore + p * 1.5 else st.diseaseIndicatorScore
  let scores :=
    if blightHit then
      scaleScore (addScore (addScore scores "Early Blight" (p * 1.2))
        "Late Blight" (p * 1.0)) "Healthy" 0.3
    else scores
  let spotsHit := matchesBucket className spotsWords
  let diseaseIndicatorScore :=
    if spotsHit then diseaseIndicatorScore + p * 0.8 else diseaseIndicatorScore
  let scores :=
    if spotsHit then
      addScore (addScore (addScore (addScore scores "Septoria Leaf Spot" (p * 0.8))
        "Target Spot" (p * 0.7)) "Bacterial Spot" (p * 0.6)) "Early Blight" (p * 0.4)
    else scores
  let yellowingHit := matchesBucket className yellowingWords
  let diseaseIndicatorScore :=
    if yellowingHit then diseaseIndicatorScore + p * 0.6 else diseaseIndicatorScore
  let scores :=
    if yellowingHit then
      addScore (addScore (addScore scores "Yellow Leaf Curl Virus" (p * 0.8))
        "Mosaic Virus" (p * 0.6)) "Early Blight" (p * 0.3)
    else scores
  let browningHit := matchesBucket className browningWords
  let diseaseIndicatorScore :=
    if browningHit then diseaseIndicatorScore + p * 1.0 else diseaseIndicatorScore
  let scores :=
    if browningHit then
      scaleScore (addScore (addScore scores "Early Blight" (p * 1.0))
        "Late Blight" (p * 0.8)) "Healthy" 0.4
    else scores
  let damageHit := matchesBucket className damageWords
  let diseaseIndicatorScore :=
    if damageHit then diseaseIndicatorScore + p * 0.6 else diseaseIndicatorScore
  let scores :=
    if damageHit then
      addScore (addScore (addScore scores "Spider Mites" (p * 0.7))
        "Leaf Curl" (p * 0.5)) "Early Blight" (p * 0.4)
    else scores
  let viralHit := matchesBucket className viralWords
  let diseaseIndicatorScore :=
    if viralHit then diseaseIndicatorScore + p * 0.5 else diseaseIndicatorScore
  let scores :=
    if viralHit then
      addScore (addScore scores "Mosaic Virus" (p * 0.8))
        "Yellow Leaf Curl Virus" (p * 0.6)
    else scores
  { scores := scores
    totalConfidence := totalConfidence
    healthyIndicators := healthyIndicators
    diseaseIndicatorScore := diseaseIndicatorScore
    plantRelatedScore := plantRelatedScore }

/-- The accumulated analysis of the whole MobileNet prediction list. -/
def analyzeState (preds : List MobileNetPrediction) (labels : List String) : SimState :=
  preds.foldl processPrediction (initState labels)

/-- healthRatio (part_010, line 331). -/
def healthRatioOf (st : SimState) : ℚ :=
  st.healthyIndicators / max st.totalConfidence 0.1

/-- diseaseRatio (part_010, line 332). -/
def diseaseRatioOf (st : SimState) : ℚ :=
  st.diseaseIndicatorScore / max st.totalConfidence 0.1

/-- plantRatio (part_010, line 333). -/
def plantRatioOf (st : SimState) : ℚ :=
  st.plantRelatedScore / max st.totalConfidence 0.1

/-- The fixed distribution written over all vocabulary scores when plant
detection is poor (part_010, lines 343-353). -/
def lowPlantDistribution (label : String) : ℚ :=
  if label = "Healthy" then 0.2
  else if label = "Early Blight" then 0.4
  else if label = "Late Blight" then 0.25
  else 0.15

/-- The global adjustments after the forEach (part_010, lines 340-382):
either the low-plant-ratio overwrite of every vocabulary score, or the
health/disease ratio based rescalings. -/
def adjustScores (labels : List String) (st : SimState) : String → ℚ :=
  if plantRatioOf st < 0.15 then
    fun label => if label ∈ labels then lowPlantDistribution label else st.scores label
  else
    let s1 :=
      if healthRatioOf st > 0.5 ∧ diseaseRatioOf st < 0.1 then
        let sh := scaleScore st.scores "Healthy" 1.3
        fun label => if label ≠ "Healthy" then sh label * 0.8 else sh label
      else st.scores
    let s2 := if diseaseRatioOf st > 0.2 then scaleScore s1 "Healthy" 0.3 else s1
    if diseaseRatioOf st > 0.5 then
      scaleScore (fun label => if label ≠ "Healthy" then s2 label * 1.5 else s2 label)
        "Healthy" 0.1
    else s2

/-- The random jitter stage (part_010, lines 385-388): each key is
multiplied by 0.95 + Math.random() * 0.1, the draw for key l being
rand l. -/
def jitterScores (s : String → ℚ) (rand : String → ℚ) : String → ℚ :=
  fun label => s label * (0.95 + rand label * 0.1)

/-- The clamping stage (part_010, lines 391-399). -/
def clampScores (s : String → ℚ) : String → ℚ :=
  fun label =>
    if label = "Healthy" then max 0.02 (min 0.7 (s label))
    else max 0.05 (min 0.95 (s label))

/-- The conditional floor on the Healthy score (part_010, lines 402-404). -/
def applyHealthyFloor (st : SimState) (s : String → ℚ) : String → ℚ :=
  if diseaseRatioOf st < 0.3 then updateScore s "Healthy" (fun x => max 0.1 x) else s

/-- The score of each key after all scoring, adjustment, jitter, clamping
and flooring stages, just before conversion to the prediction list. -/
def finalScores (preds : List MobileNetPrediction) (labels : List String)
    (rand : String → ℚ) : String → ℚ :=
  let st := analyzeState preds labels
  applyHealthyFloor st (clampScores (jitterScores (adjustScores labels st) rand))

/-- The normalized prediction list over the whole vocabulary
(part_010, lines 407-417): one prediction per vocabulary label, confidences
divided by their total. -/
def normalizedDistribution (preds : List MobileNetPrediction) (labels : List String)
    (rand : String → ℚ) : List Prediction :=
  let floored := finalScores preds labels rand
  let predictions := labels.map (fun label => Prediction.mk label (floored label))
  let totalScore := (predictions.map (fun p => p.confidence)).sum
  predictions.map (fun p => Prediction.mk p.label (p.confidence / totalScore))

/-- The comparison order of the sort at part_010 line 421: a precedes b
when its confidence is at least the confidence of b. -/
def confGE (a b : Prediction) : Prop :=
  b.confidence ≤ a.confidence

instance : DecidableRel confGE :=
  fun a b => inferInstanceAs (Decidable (b.confidence ≤ a.confidence))

instance : IsTotal Prediction confGE :=
  ⟨fun a b => le_total b.confidence a.confidence⟩

instance : IsTrans Prediction confGE :=
  ⟨fun _ _ _ h1 h2 => le_trans h2 h1⟩

/-- The stable descending sort of predictions by confidence
(part_010, lines 420-421). -/
def sortByConfidenceDesc (l : List Prediction) : List Prediction :=
  List.insertionSort confGE l

/-- simulatePlantDiseaseFromMobileNet (part_010, lines 174-441), success
path: keyword scoring, global adjustments, jitter, clamping, normalization,
sort and truncation to topK. The rand argument supplies the Math.random()
draw used for each score key. -/
def simulatePlantDiseaseFromMobileNet (preds : List MobileNetPrediction)
    (labels : List String) (topK : ℕ) (rand : String → ℚ) : List Prediction :=
  (sortByConfidenceDesc (normalizedDistribution preds labels rand)).take topK

/-- The catch-branch fallback of simulatePlantDiseaseFromMobileNet
(part_010, lines 435-439), returned only when the body throws. -/
def fallbackPredictions (topK : ℕ) : List Prediction :=
  ([⟨"Early Blight", 0.5⟩, ⟨"Late Blight", 0.3⟩, ⟨"Healthy", 0.2⟩] : List Prediction).take
    topK

/-- DEFAULT_LABELS (part_010, lines 519-530). -/
def DEFAULT_LABELS : List String :=
  ["Healthy",
   "Early Blight",
   "Late Blight",
   "Leaf Curl",
   "Mosaic Virus",
   "Septoria Leaf Spot",
   "Spider Mites",
   "Target Spot",
   "Yellow Leaf Curl Virus",
   "Bacterial Spot"]

end ModelHelpers

namespace Types

/-- Prediction (types/index.ts, lines 2-5). -/
structure Prediction where
  className : String
  probability : ℚ
deriving DecidableEq

/-- AdditionalDiagnosisData (types/index.ts, lines 7-16). -/
structure AdditionalDiagnosisData where
  soilPH : ℚ
  soilMoisture : ℚ
  temperature : ℚ
  humidity : ℚ
  lightIntensity : ℚ
  plantAge : ℚ
  location : String
  notes : String
deriving DecidableEq

/-- DiagnosisResult (types/index.ts, lines 18-28), with the
EnvironmentalConditions and recommendations payloads kept abstractly as the
fields the metrics code never inspects are irrelevant here; every field
read by storage.ts is present. -/
structure DiagnosisResult where
  id : String
  userId : Option String
  timestamp : ℤ
  imageUrl : String
  predictions : List Prediction
  topPrediction : Prediction
  recommendations : Option (List String)
  additionalData : Option AdditionalDiagnosisData
deriving DecidableEq

/-- ChatMessage (types/index.ts, lines 46-53), without the optional
dashboardData back-reference (never read by saveChatMessage). -/
structure ChatMessage where
  id : String
  userId : String
  timestamp : ℤ
  msgType : String
  content : String
deriving DecidableEq

/-- DashboardMetrics (types/index.ts, lines 55-65). The diseaseFrequency
record is modelled as an association list in key insertion order. -/
structure DashboardMetrics where
  totalDiagnoses : ℕ
  healthyPlants : ℕ
  diseasedPlants : ℕ
  waterSaved : ℚ
  pesticidesAvoided : ℚ
  diseaseFrequency : List (String × ℕ)
  averageSoilPH : ℚ
  averageTemperature : ℚ
  averageHumidity : ℚ
deriving DecidableEq

end Types

namespace Storage

open Types

/-- The pure core of saveDiagnosis (storage.ts, lines 13-30): the new
diagnosis is prepended to the stored history and the result truncated to
100 entries before being written back. -/
def saveDiagnosisLocal (diagnosis : DiagnosisResult)
    (existing : List DiagnosisResult) : List DiagnosisResult :=
  (diagnosis :: existing).take 100

/-- The pure core of the localStorage path of saveChatMessage
(storage.ts, lines 82-84): the message is appended and the result truncated
with slice(-200), which keeps the last 200 entries. -/
def saveChatMessageLocal (message : ChatMessage)
    (existing : List ChatMessage) : List ChatMessage :=
  let updated := existing ++ [message]
  updated.drop (updated.length - 200)

/-- One step of the diseaseFrequency accumulation (storage.ts,
lines 204-207): an existing key is incremented, a new key is appended
with count 1. JavaScript object keys are unique, hence the recursion
stops at the first hit. -/
def bumpFrequency : List (String × ℕ) → String → List (String × ℕ)
  | [], k => [(k, 1)]
  | (k', n) :: rest, k =>
    if k' = k then (k', n + 1) :: rest else (k', n) :: bumpFrequency rest k

/-- calculateMetrics (storage.ts, lines 181-237). -/
def calculateMetrics (diagnoses : List DiagnosisResult) : DashboardMetrics :=
  let total := diagnoses.length
  if total = 0 then
    { totalDiagnoses := 0
      healthyPlants := 0
      diseasedPlants := 0
      waterSaved := 0
      pesticidesAvoided := 0
      diseaseFrequency := []
      averageSoilPH := 0
      averageTemperature := 0
      averageHumidity := 0 }
  else
    let healthy :=
      (diagnoses.filter (fun d => d.topPrediction.className = "Healthy")).length
    let diseased := total - healthy
    let diseaseFrequency :=
      diagnoses.foldl (fun f d => bumpFrequency f d.topPrediction.className) []
    let recordsWithData := diagnoses.filter (fun d => d.additionalData.isSome)
    let averageSoilPH :=
      if recordsWithData.length > 0 then
        (recordsWithData.map (fun d => ((d.additionalData.map (fun a => a.soilPH)).getD 0))).sum
          / recordsWithData.length
      else 0
    let averageTemperature :=
      if recordsWithData.length > 0 then
        (recordsWithData.map (fun d => ((d.additionalData.map (fun a => a.temperature)).getD 0))).sum
          / recordsWithData.length
      else 0
    let averageHumidity :=
      if recordsWithData.length > 0 then
        (recordsWithData.map (fun d => ((d.additionalData.map (fun a => a.humidity)).getD 0))).sum
          / recordsWithData.length
      else 0
    let sustainableActionsUsed : ℚ := (diseased : ℚ) * 2
    let waterSaved := sustainableActionsUsed * 2.5
    let pesticidesAvoided := sustainableActionsUsed * 15
    { totalDiagnoses := total
      healthyPlants := healthy
      diseasedPlants := diseased
      waterSaved := waterSaved
      pesticidesAvoided := pesticidesAvoided
      diseaseFrequency := diseaseFrequency
      averageSoilPH := averageSoilPH
      averageTemperature := averageTemperature
      averageHumidity := averageHumidity }

end Storage

namespace ImageProcessing

/-- The part of the browser File object read by validateImageFile: the MIME
type string and the size in bytes. -/
structure File where
  mimeType : String
  size : ℕ
deriving DecidableEq

/-- validateImageFile (part_008, lines 69-74). -/
def validateImageFile (file : File) : Bool :=
  let validTypes := ["image/jpeg", "image/png", "image/webp"]
  let maxSize := 10 * 1024 * 1024
  validTypes.contains file.mimeType && file.size ≤ maxSize

/-- handleFileSelect (ImageUpload.tsx, lines 17-26): an invalid file sets
the error banner and the pipeline callback is never invoked; a valid file
is handed to onImageSelect. -/
def handleFileSelect (file : File) : Except String File :=
  if validateImageFile file then Except.ok file
  else Except.error "Please select a valid image file (JPEG, PNG, WebP) under 10MB"

end ImageProcessing

namespace InferenceComponent

/-- The modelStatus values of the Inference component
(Inference.tsx, line 32). -/
inductive ModelStatus where
  | loading
  | ready
  | error
  | neverLoaded
deriving DecidableEq

/-- A loaded model is opaque to the fallback logic; only its presence
matters. -/
structure LoadedModel where
  name : String
deriving DecidableEq

/-- Component state relevant to the fallback logic: the status and the
cached model. -/
structure ModelState where
  status : ModelStatus
  model : Option LoadedModel
deriving DecidableEq

/-- The outcome of initializeModel (Inference.tsx, lines 64-118), as a
function of the outcome of loadModel plus validateModel: on success the
model is cached with status ready; on any thrown error the catch block
still sets status ready but leaves the model null, triggering mock mode. -/
def initializeModel (loadResult : Except String LoadedModel)
    (valid : LoadedModel → Bool) : ModelState :=
  match loadResult with
  | Except.ok m => if valid m then ⟨ModelStatus.ready, some m⟩ else ⟨ModelStatus.ready, none⟩
  | Except.error _ => ⟨ModelStatus.ready, none⟩

/-- The hardcoded mock predictions used when no model is available
(Inference.tsx, lines 160-164). -/
def mockPredictions : List ModelHelpers.Prediction :=
  [⟨"Early Blight", 0.85⟩, ⟨"Healthy", 0.12⟩, ⟨"Late Blight", 0.03⟩]

/-- What processImage reports back to the parent component: either the
onResults callback with predictions and the processed image URL, or the
onError callback with a message. -/
inductive ProcessOutcome where
  | results (preds : List ModelHelpers.Prediction) (url : String)
  | errorSurfaced (msg : String)
deriving DecidableEq

/-- processImage (Inference.tsx, lines 137-213), as a function of the
outcomes of its two fallible sub-steps: image creation plus preprocessing
(yielding the processed image URL), and model inference. A throw in either
step lands in the catch block at lines 207-212, which invokes onError; with
no model the mock prediction list is used without consulting inference. -/
def processImage (preprocessResult : Except String String)
    (runResult : Except String (List ModelHelpers.Prediction))
    (model : Option LoadedModel) : ProcessOutcome :=
  match preprocessResult with
  | Except.error e => ProcessOutcome.errorSurfaced e
  | Except.ok url =>
    match model with
    | some _ =>
      match runResult with
      | Except.ok preds => ProcessOutcome.results preds url
      | Except.error e => ProcessOutcome.errorSurfaced e
    | none => ProcessOutcome.results mockPredictions url

end InferenceComponent

/-! ## Supporting lemmas about the heuristic mapper -/

namespace ModelHelpers

lemma list_sum_div (l : List ℚ) (c : ℚ) : (l.map (fun x => x / c)).sum = l.sum / c := by
  induction l with
  | nil => simp
  | cons a t ih => simp [ih, add_div]

lemma clampScores_ge (s : String → ℚ) (l : String) : (1:ℚ)/50 ≤ clampScores s l := by
  unfold clampScores
  split_ifs
  · exact le_trans (by norm_num) (le_max_left _ _)
  · exact le_trans (by norm_num) (le_max_left _ _)

lemma finalScores_ge (preds : List MobileNetPrediction) (labels : List String)
    (rand : String → ℚ) (l : String) :
    (1:ℚ)/50 ≤ finalScores preds labels rand l := by
  unfold finalScores applyHealthyFloor
  split_ifs
  · unfold updateScore
    split_ifs
    · exact le_trans (clampScores_ge _ _) (le_max_right _ _)
    · exact clampScores_ge _ _
  · exact clampScores_ge _ _

lemma normalizedDistribution_eq (preds : List MobileNetPrediction) (labels : List String)
    (rand : String → ℚ) :
    normalizedDistribution preds labels rand =
      labels.map (fun l => Prediction.mk l
        (finalScores preds labels rand l /
          (labels.map (finalScores preds labels rand)).sum)) := by
  have hconf : ((labels.map fun label =>
      Prediction.mk label (finalScores preds labels rand label)).map
        (fun p => p.confidence)) = labels.map (finalScores preds labels rand) := by
    rw [List.map_map]; rfl
  simp only [normalizedDistribution, hconf, List.map_map]
  rfl

lemma totalScore_pos {preds : List MobileNetPrediction} {labels : List String}
    {rand : String → ℚ} (hne : labels ≠ []) :
    0 < (labels.map (finalScores preds labels rand)).sum := by
  apply List.sum_pos
  · intro a ha
    obtain ⟨l, _, rfl⟩ := List.mem_map.mp ha
    exact lt_of_lt_of_le (by norm_num) (finalScores_ge preds labels rand l)
  · intro h
    exact hne (List.map_eq_nil_iff.mp h)

lemma nd_conf_sum {preds : List MobileNetPrediction} {labels : List String}
    {rand : String → ℚ} (hne : labels ≠ []) :
    ((normalizedDistribution preds labels rand).map (fun p => p.confidence)).sum = 1 := by
  rw [normalizedDistribution_eq, List.map_map]
  have h1 : ((fun p : Prediction => p.confidence) ∘ (fun l => Prediction.mk l
      (finalScores preds labels rand l /
        (labels.map (finalScores preds labels rand)).sum))) =
      fun l => finalScores preds labels rand l /
        (labels.map (finalScores preds labels rand)).sum := rfl
  rw [h1]
  have h2 : (labels.map fun l => finalScores preds labels rand l /
      (labels.map (finalScores preds labels rand)).sum) =
      ((labels.map (finalScores preds labels rand)).map (fun x => x /
        (labels.map (finalScores preds labels rand)).sum)) := by
    rw [List.map_map]; rfl
  rw [h2, list_sum_div, div_self (totalScore_pos hne).ne']

lemma nd_conf_nonneg {preds : List MobileNetPrediction} {labels : List String}
    {rand : String → ℚ} (hne : labels ≠ []) {p : Prediction}
    (hp : p ∈ normalizedDistribution preds labels rand) : 0 ≤ p.confidence := by
  rw [normalizedDistribution_eq] at hp
  obtain ⟨l, _, rfl⟩ := List.mem_map.mp hp
  exact div_nonneg (le_trans (by norm_num) (finalScores_ge preds labels rand l))
    (le_of_lt (totalScore_pos hne))

lemma mem_simulate_mem_nd {preds : List MobileNetPrediction} {labels : List String}
    {topK : ℕ} {rand : String → ℚ} {p : Prediction}
    (hp : p ∈ simulatePlantDiseaseFromMobileNet preds labels topK rand) :
    p ∈ normalizedDistribution preds labels rand := by
  unfold simulatePlantDiseaseFromMobileNet sortByConfidenceDesc at hp
  exact (List.perm_insertionSort confGE _).mem_iff.mp (List.mem_of_mem_take hp)

lemma plantRatioOf_initState (labels : List String) :
    plantRatioOf (initState labels) = 0 := by
  simp [plantRatioOf, initState]

lemma diseaseRatioOf_initState (labels : List String) :
    diseaseRatioOf (initState labels) = 0 := by
  simp [diseaseRatioOf, initState]

lemma lowPlantDistribution_bounds (l : String) :
    3/20 ≤ lowPlantDistribution l ∧ lowPlantDistribution l ≤ 2/5 := by
  unfold lowPlantDistribution
  split_ifs <;> norm_num

lemma adjustScores_overwrite {labels : List String} {st : SimState}
    (h : plantRatioOf st < 0.15) {l : String} (hl : l ∈ labels) :
    adjustScores labels st l = lowPlantDistribution l := by
  unfold adjustScores
  rw [if_pos h, if_pos hl]

lemma finalScores_nil_eq (labels : List String) (rand : String → ℚ)
    (hr : ∀ l, 0 ≤ rand l ∧ rand l < 1) (l : String) (hl : l ∈ labels) :
    finalScores [] labels rand l
      = lowPlantDistribution l * (19/20 + rand l * (1/10)) := by
  obtain ⟨h0, h1⟩ := hr l
  set f : ℚ := 19/20 + rand l * (1/10) with hfdef
  have hf0 : (19:ℚ)/20 ≤ f := by rw [hfdef]; nlinarith
  have hf1 : f ≤ 21/20 := by rw [hfdef]; nlinarith
  have hx := lowPlantDistribution_bounds l
  set x : ℚ := lowPlantDistribution l with hxdef
  have hplant : plantRatioOf (initState labels) < 0.15 := by
    rw [plantRatioOf_initState]; norm_num
  have hadj : adjustScores labels (initState labels) l = x :=
    adjustScores_overwrite hplant hl
  have hjit : jitterScores (adjustScores labels (initState labels)) rand l = x * f := by
    simp only [jitterScores, hadj]
    norm_num [hfdef]
  have hj1 : 57/400 ≤ x * f := by nlinarith [hx.1, hx.2]
  have hj2 : x * f ≤ 21/50 := by nlinarith [hx.1, hx.2]
  unfold finalScores analyzeState
  simp only [List.foldl_nil]
  unfold applyHealthyFloor
  rw [if_pos (by rw [diseaseRatioOf_initState]; norm_num :
    diseaseRatioOf (initState labels) < 0.3)]
  by_cases hH : l = "Healthy"
  · subst hH
    have hx5 : x = 1/5 := by rw [hxdef]; norm_num [lowPlantDistribution]
    have hjA : (19:ℚ)/100 ≤ x * f := by rw [hx5]; linarith
    have hjB : x * f ≤ 21/100 := by rw [hx5]; linarith
    have e1 : (0.7:ℚ) ⊓ (x * f) = x * f := min_eq_right (by linarith)
    have e2 : (0.02:ℚ) ⊔ (x * f) = x * f := max_eq_right (by linarith)
    have e3 : (0.1:ℚ) ⊔ (x * f) = x * f := max_eq_right (by linarith)
    simp [updateScore, clampScores, hjit, e1, e2, e3]
  · simp only [updateScore, if_neg hH, clampScores, hjit]
    rw [min_eq_right (by linarith : x * f ≤ (0.95:ℚ))]
    rw [max_eq_right (by linarith : (0.05:ℚ) ≤ x * f)]

lemma totalScore_nil_ge {rand : String → ℚ} (hr : ∀ l, 0 ≤ rand l ∧ rand l < 1) :
    361/200 ≤ (DEFAULT_LABELS.map (finalScores [] DEFAULT_LABELS rand)).sum := by
  have hmap : DEFAULT_LABELS.map (finalScores [] DEFAULT_LABELS rand) =
      DEFAULT_LABELS.map (fun l => lowPlantDistribution l * (19/20 + rand l * (1/10))) :=
    List.map_congr_left (fun l hl => finalScores_nil_eq _ _ hr l hl)
  rw [hmap]
  have h1 := hr "Healthy"
  have h2 := hr "Early Blight"
  have h3 := hr "Late Blight"
  have h4 := hr "Leaf Curl"
  have h5 := hr "Mosaic Virus"
  have h6 := hr "Septoria Leaf Spot"
  have h7 := hr "Spider Mites"
  have h8 := hr "Target Spot"
  have h9 := hr "Yellow Leaf Curl Virus"
  have h10 := hr "Bacterial Spot"
  simp [DEFAULT_LABELS, lowPlantDistribution]
  linarith [h1.1, h2.1, h3.1, h4.1, h5.1, h6.1, h7.1, h8.1, h9.1, h10.1]

lemma simulate_nil_conf_lt {rand : String → ℚ} (hr : ∀ l, 0 ≤ rand l ∧ rand l < 1)
    {topK : ℕ} {p : Prediction}
    (hp : p ∈ simulatePlantDiseaseFromMobileNet [] DEFAULT_LABELS topK rand) :
    p.confidence < 1/2 := by
  have hnd := mem_simulate_mem_nd hp
  rw [normalizedDistribution_eq] at hnd
  obtain ⟨l, hl, rfl⟩ := List.mem_map.mp hnd
  have hT := totalScore_nil_ge hr
  have hT0 : (0:ℚ) < (DEFAULT_LABELS.map (finalScores [] DEFAULT_LABELS rand)).sum := by
    linarith
  have hv : finalScores [] DEFAULT_LABELS rand l ≤ 21/50 := by
    rw [finalScores_nil_eq _ _ hr l hl]
    have hx := lowPlantDistribution_bounds l
    have hrl := hr l
    nlinarith [hx.1, hx.2, hrl.1, hrl.2]
  show finalScores [] DEFAULT_LABELS rand l /
    (DEFAULT_LABELS.map (finalScores [] DEFAULT_LABELS rand)).sum < 1/2
  rw [div_lt_iff₀ hT0]
  linarith

end ModelHelpers

namespace ModelHelpers

/-- Concrete run of the mapper on the empty MobileNet prediction list with
every Math.random() draw equal to one half (jitter factor exactly 1). -/
lemma nd_half :
    normalizedDistribution [] DEFAULT_LABELS (fun _ => 1/2) =
      [⟨"Healthy", 2/19⟩, ⟨"Early Blight", 4/19⟩, ⟨"Late Blight", 5/38⟩,
       ⟨"Leaf Curl", 3/38⟩, ⟨"Mosaic Virus", 3/38⟩, ⟨"Septoria Leaf Spot", 3/38⟩,
       ⟨"Spider Mites", 3/38⟩, ⟨"Target Spot", 3/38⟩,
       ⟨"Yellow Leaf Curl Virus", 3/38⟩, ⟨"Bacterial Spot", 3/38⟩] := by
  have hmap : DEFAULT_LABELS.map
      (fun l => Prediction.mk l (finalScores [] DEFAULT_LABELS (fun _ => 1/2) l))
      = DEFAULT_LABELS.map (fun l => Prediction.mk l (lowPlantDistribution l)) := by
    refine List.map_congr_left (fun l hl => ?_)
    rw [finalScores_nil_eq _ _ (fun _ => ⟨by norm_num, by norm_num⟩) l hl]
    norm_num
  simp only [normalizedDistribution]
  rw [hmap]
  simp [DEFAULT_LABELS, lowPlantDistribution]
  norm_num

lemma sort_half :
    sortByConfidenceDesc
      [⟨"Healthy", 2/19⟩, ⟨"Early Blight", 4/19⟩, ⟨"Late Blight", 5/38⟩,
       ⟨"Leaf Curl", 3/38⟩, ⟨"Mosaic Virus", 3/38⟩, ⟨"Septoria Leaf Spot", 3/38⟩,
       ⟨"Spider Mites", 3/38⟩, ⟨"Target Spot", 3/38⟩,
       ⟨"Yellow Leaf Curl Virus", 3/38⟩, ⟨"Bacterial Spot", 3/38⟩]
      = [⟨"Early Blight", 4/19⟩, ⟨"Late Blight", 5/38⟩, ⟨"Healthy", 2/19⟩,
         ⟨"Leaf Curl", 3/38⟩, ⟨"Mosaic Virus", 3/38⟩, ⟨"Septoria Leaf Spot", 3/38⟩,
         ⟨"Spider Mites", 3/38⟩, ⟨"Target Spot", 3/38⟩,
         ⟨"Yellow Leaf Curl Virus", 3/38⟩, ⟨"Bacterial Spot", 3/38⟩] := by
  norm_num [sortByConfidenceDesc, List.insertionSort, List.orderedInsert, confGE]

lemma simulate_half :
    simulatePlantDiseaseFromMobileNet [] DEFAULT_LABELS 3 (fun _ => 1/2) =
      [⟨"Early Blight", 4/19⟩, ⟨"Late Blight", 5/38⟩, ⟨"Healthy", 2/19⟩] := by
  unfold simulatePlantDiseaseFromMobileNet
  rw [nd_half, sort_half]
  rfl

/-- Concrete run on the empty prediction list, where only the draw for the
Early Blight key differs (it is 0, giving jitter factor 0.95). -/
lemma nd_ebLow :
    normalizedDistribution [] DEFAULT_LABELS
      (fun l => if l = "Early Blight" then 0 else 1/2) =
      [⟨"Healthy", 5/47⟩, ⟨"Early Blight", 19/94⟩, ⟨"Late Blight", 25/188⟩,
       ⟨"Leaf Curl", 15/188⟩, ⟨"Mosaic Virus", 15/188⟩, ⟨"Septoria Leaf Spot", 15/188⟩,
       ⟨"Spider Mites", 15/188⟩, ⟨"Target Spot", 15/188⟩,
       ⟨"Yellow Leaf Curl Virus", 15/188⟩, ⟨"Bacterial Spot", 15/188⟩] := by
  have hr : ∀ l, 0 ≤ (if l = "Early Blight" then (0:ℚ) else 1/2) ∧
      (if l = "Early Blight" then (0:ℚ) else 1/2) < 1 := by
    intro l
    split_ifs <;> norm_num
  have hmap : DEFAULT_LABELS.map
      (fun l => Prediction.mk l (finalScores [] DEFAULT_LABELS
        (fun l => if l = "Early Blight" then 0 else 1/2) l))
      = DEFAULT_LABELS.map (fun l => Prediction.mk l
          (lowPlantDistribution l *
            (19/20 + (if l = "Early Blight" then 0 else 1/2) * (1/10)))) := by
    refine List.map_congr_left (fun l hl => ?_)
    rw [finalScores_nil_eq _ _ hr l hl]
  simp only [normalizedDistribution]
  rw [hmap]
  simp [DEFAULT_LABELS, lowPlantDistribution]
  norm_num

lemma sort_ebLow :
    sortByConfidenceDesc
      [⟨"Healthy", 5/47⟩, ⟨"Early Blight", 19/94⟩, ⟨"Late Blight", 25/188⟩,
       ⟨"Leaf Curl", 15/188⟩, ⟨"Mosaic Virus", 15/188⟩, ⟨"Septoria Leaf Spot", 15/188⟩,
       ⟨"Spider Mites", 15/188⟩, ⟨"Target Spot", 15/188⟩,
       ⟨"Yellow Leaf Curl Virus", 15/188⟩, ⟨"Bacterial Spot", 15/188⟩]
      = [⟨"Early Blight", 19/94⟩, ⟨"Late Blight", 25/188⟩, ⟨"Healthy", 5/47⟩,
         ⟨"Leaf Curl", 15/188⟩, ⟨"Mosaic Virus", 15/188⟩, ⟨"Septoria Leaf Spot", 15/188⟩,
         ⟨"Spider Mites", 15/188⟩, ⟨"Target Spot", 15/188⟩,
         ⟨"Yellow Leaf Curl Virus", 15/188⟩, ⟨"Bacterial Spot", 15/188⟩] := by
  norm_num [sortByConfidenceDesc, List.insertionSort, List.orderedInsert, confGE]

lemma simulate_ebLow :
    simulatePlantDiseaseFromMobileNet [] DEFAULT_LABELS 3
      (fun l => if l = "Early Blight" then 0 else 1/2) =
      [⟨"Early Blight", 19/94⟩, ⟨"Late Blight", 25/188⟩, ⟨"Healthy", 5/47⟩] := by
  unfold simulatePlantDiseaseFromMobileNet
  rw [nd_ebLow, sort_ebLow]
  rfl

end ModelHelpers

namespace Storage

lemma bumpFrequency_sum (f : List (String × ℕ)) (k : String) :
    ((bumpFrequency f k).map (fun p => p.2)).sum = (f.map (fun p => p.2)).sum + 1 := by
  induction f with
  | nil => simp [bumpFrequency]
  | cons a t ih =>
    obtain ⟨k', n⟩ := a
    by_cases h : k' = k
    · simp [bumpFrequency, h]
      omega
    · simp [bumpFrequency, h, ih]
      omega

lemma foldl_bump_sum (l : List Types.DiagnosisResult) :
    ∀ init : List (String × ℕ),
      (((l.foldl (fun f d => bumpFrequency f d.topPrediction.className) init).map
        (fun p => p.2)).sum) = (init.map (fun p => p.2)).sum + l.length := by
  induction l with
  | nil => intro init; simp
  | cons d t ih =>
    intro init
    simp only [List.foldl_cons, List.length_cons]
    rw [ih, bumpFrequency_sum]
    omega

end Storage

/-! ## The claims -/

open ModelHelpers Types

/-- C1 (counterexample): the confidences of the list actually returned by
simulatePlantDiseaseFromMobileNet do not sum to 1 within 1e-6 for the
default configuration: with the empty input, the ten default labels, topK 3
and all jitter draws one half, the returned top-3 confidences sum to 17/38,
which is short of 1 by far more than 1e-6; normalization happens over the
whole vocabulary before the list is cut to topK. -/
theorem C1_sum_after_topK_counterexample :
    ((simulatePlantDiseaseFromMobileNet [] DEFAULT_LABELS 3 (fun _ => 1/2)).map
      (fun p => p.confidence)).sum = 17/38 ∧ (1:ℚ)/1000000 < 1 - 17/38 := by
  rw [simulate_half]
  norm_num

/-- C1 (amended): for every non-empty vocabulary, every input list and every
topK, the returned list has only non-negative confidences; the normalized
distribution over the whole vocabulary sums exactly to 1; and the returned
list, being a truncation of that distribution, has confidence sum at
most 1. -/
theorem C1_nonneg_and_normalization (preds : List MobileNetPrediction)
    (labels : List String) (topK : ℕ) (rand : String → ℚ) (hne : labels ≠ []) :
    (∀ p ∈ simulatePlantDiseaseFromMobileNet preds labels topK rand, 0 ≤ p.confidence) ∧
    ((normalizedDistribution preds labels rand).map (fun p => p.confidence)).sum = 1 ∧
    ((simulatePlantDiseaseFromMobileNet preds labels topK rand).map
      (fun p => p.confidence)).sum ≤ 1 := by
  refine ⟨fun p hp => nd_conf_nonneg hne (mem_simulate_mem_nd hp), nd_conf_sum hne, ?_⟩
  have hperm : List.Perm ((sortByConfidenceDesc (normalizedDistribution preds labels rand)).map
      (fun p => p.confidence)) ((normalizedDistribution preds labels rand).map
      (fun p => p.confidence)) :=
    (List.perm_insertionSort confGE _).map _
  have hsum : ((sortByConfidenceDesc (normalizedDistribution preds labels rand)).map
      (fun p => p.confidence)).sum = 1 := by
    rw [hperm.sum_eq, nd_conf_sum hne]
  unfold simulatePlantDiseaseFromMobileNet
  rw [List.map_take]
  set cs := (sortByConfidenceDesc (normalizedDistribution preds labels rand)).map
    (fun p => p.confidence) with hcs
  have hdropnn : 0 ≤ (cs.drop topK).sum := by
    apply List.sum_nonneg
    intro x hx
    have hxcs : x ∈ cs := List.mem_of_mem_drop hx
    rw [hcs] at hxcs
    obtain ⟨q, hq, rfl⟩ := List.mem_map.mp hxcs
    have : q ∈ normalizedDistribution preds labels rand := by
      unfold sortByConfidenceDesc at hq
      exact (List.perm_insertionSort confGE _).mem_iff.mp hq
    exact nd_conf_nonneg hne this
  have := List.sum_take_add_sum_drop cs topK
  linarith [hsum]

/-- C1 witness: the amended statement evaluated at the singleton vocabulary,
empty input, topK 1, all draws 0. -/
theorem C1_nonneg_and_normalization_witness :
    ((normalizedDistribution [] ["Healthy"] (fun _ => 0)).map
      (fun p => p.confidence)).sum = 1 ∧
    ((simulatePlantDiseaseFromMobileNet [] ["Healthy"] 1 (fun _ => 0)).map
      (fun p => p.confidence)).sum ≤ 1 :=
  ⟨(C1_nonneg_and_normalization [] ["Healthy"] 1 (fun _ => 0) (by simp)).2.1,
   (C1_nonneg_and_normalization [] ["Healthy"] 1 (fun _ => 0) (by simp)).2.2⟩

/-- C2 (counterexample): on the EMPTY input list no exception occurs, so the
function does not return the catch-block fallback triple: with the default
labels, topK 3 and all jitter draws one half it returns the normalized
low-plant-ratio distribution, whose head is Early Blight at 4/19, not the
fallback triple headed by Early Blight at 0.5. -/
theorem C2_empty_input_counterexample :
    simulatePlantDiseaseFromMobileNet [] DEFAULT_LABELS 3 (fun _ => 1/2) ≠
      fallbackPredictions 3 := by
  rw [simulate_half]
  intro h
  have h2 : fallbackPredictions 3 =
      [⟨"Early Blight", 0.5⟩, ⟨"Late Blight", 0.3⟩, ⟨"Healthy", 0.2⟩] := rfl
  rw [h2] at h
  have h3 := List.head_eq_of_cons_eq h
  rw [ModelHelpers.Prediction.mk.injEq] at h3
  norm_num at h3

/-- C2 (amended): the documented fallback triple (Early Blight 0.5, Late
Blight 0.3, Healthy 0.2, truncated to topK) is returned only by the catch
branch, i.e. for malformed input that makes the body throw; an empty input
list does not throw and never produces the fallback triple: every
confidence the mapper returns for the empty input stays below 0.5 for all
admissible jitter draws. -/
theorem C2_empty_not_fallback (rand : String → ℚ)
    (hr : ∀ l, 0 ≤ rand l ∧ rand l < 1) :
    fallbackPredictions 3 =
      [⟨"Early Blight", 0.5⟩, ⟨"Late Blight", 0.3⟩, ⟨"Healthy", 0.2⟩] ∧
    (∀ p ∈ simulatePlantDiseaseFromMobileNet [] DEFAULT_LABELS 3 rand,
      p.confidence < 1/2) ∧
    simulatePlantDiseaseFromMobileNet [] DEFAULT_LABELS 3 rand ≠
      fallbackPredictions 3 := by
  refine ⟨rfl, fun p hp => simulate_nil_conf_lt hr hp, ?_⟩
  intro h
  have hmem : (ModelHelpers.Prediction.mk "Early Blight" 0.5) ∈
      simulatePlantDiseaseFromMobileNet [] DEFAULT_LABELS 3 rand := by
    rw [h]
    exact List.mem_cons_self _ _
  have := simulate_nil_conf_lt hr hmem
  norm_num at this

/-- C2 witness: the amended statement at the draw map constantly 0. -/
theorem C2_empty_not_fallback_witness :
    simulatePlantDiseaseFromMobileNet [] DEFAULT_LABELS 3 (fun _ => 0) ≠
      fallbackPredictions 3 :=
  (C2_empty_not_fallback (fun _ => 0) (fun _ => ⟨le_refl 0, by norm_num⟩)).2.2

/-- C3 (confirmed): the jitter stage multiplies every score by
0.95 + draw * 0.1, which lies in [0.95, 1.05] whenever the draw lies in
[0, 1) as Math.random() guarantees; consequently the mapper is not a
deterministic function of its input: on the empty input with the default
labels, the all-one-half draw map and the draw map that sends only the
Early Blight key to 0 produce different outputs. -/
theorem C3_jitter_nondeterminism :
    (∀ (s rand : String → ℚ) (l : String),
      jitterScores s rand l = s l * (0.95 + rand l * 0.1)) ∧
    (∀ (rand : String → ℚ) (l : String), 0 ≤ rand l → rand l < 1 →
      0.95 ≤ 0.95 + rand l * 0.1 ∧ 0.95 + rand l * 0.1 ≤ 1.05) ∧
    simulatePlantDiseaseFromMobileNet [] DEFAULT_LABELS 3 (fun _ => 1/2) ≠
      simulatePlantDiseaseFromMobileNet [] DEFAULT_LABELS 3
        (fun l => if l = "Early Blight" then 0 else 1/2) := by
  refine ⟨fun s rand l => rfl, fun rand l h0 h1 => ⟨by linarith, by linarith⟩, ?_⟩
  rw [simulate_half, simulate_ebLow]
  intro h
  have h3 := List.head_eq_of_cons_eq h
  rw [ModelHelpers.Prediction.mk.injEq] at h3
  norm_num at h3

/-- C3 witness: the jitter equation and the factor range at concrete
arguments, and the two concrete runs that differ. -/
theorem C3_jitter_nondeterminism_witness :
    jitterScores (fun _ => 1) (fun _ => 1/2) "Healthy" = 1 * (0.95 + (1/2) * 0.1) ∧
    (0.95 ≤ (0.95:ℚ) + (1/2) * 0.1 ∧ (0.95:ℚ) + (1/2) * 0.1 ≤ 1.05) ∧
    simulatePlantDiseaseFromMobileNet [] DEFAULT_LABELS 3 (fun _ => 1/2) ≠
      simulatePlantDiseaseFromMobileNet [] DEFAULT_LABELS 3
        (fun l => if l = "Early Blight" then 0 else 1/2) :=
  ⟨C3_jitter_nondeterminism.1 (fun _ => 1) (fun _ => 1/2) "Healthy",
   C3_jitter_nondeterminism.2.1 (fun _ => 1/2) "Healthy" (by norm_num) (by norm_num),
   C3_jitter_nondeterminism.2.2⟩

/-- C4 (confirmed): whenever the plant-relatedness ratio is below 0.15,
every vocabulary score is overwritten, before the jitter stage, with the
fixed distribution Healthy 0.2, Early Blight 0.4, Late Blight 0.25 and
0.15 for every other label. -/
theorem C4_low_plant_overwrite (preds : List MobileNetPrediction)
    (labels : List String)
    (h : plantRatioOf (analyzeState preds labels) < 0.15) :
    ∀ l ∈ labels, adjustScores labels (analyzeState preds labels) l =
      (if l = "Healthy" then 0.2 else if l = "Early Blight" then 0.4
       else if l = "Late Blight" then 0.25 else 0.15) := by
  intro l hl
  rw [adjustScores_overwrite h hl]
  rfl

/-- C4 witness: with the empty input the ratio is 0 and the Early Blight
score is overwritten to 0.4. -/
theorem C4_low_plant_overwrite_witness :
    plantRatioOf (analyzeState [] DEFAULT_LABELS) < 0.15 ∧
    adjustScores DEFAULT_LABELS (analyzeState [] DEFAULT_LABELS) "Early Blight" = 0.4 := by
  have h : plantRatioOf (analyzeState [] DEFAULT_LABELS) < 0.15 := by
    show plantRatioOf (initState DEFAULT_LABELS) < 0.15
    rw [plantRatioOf_initState]
    norm_num
  refine ⟨h, ?_⟩
  rw [C4_low_plant_overwrite [] DEFAULT_LABELS h "Early Blight" (by simp [DEFAULT_LABELS])]
  simp

/-- C5 (confirmed): the returned list is sorted in non-increasing order of
confidence and its length is at most topK and at most the size of the
vocabulary. -/
theorem C5_sorted_topK_length (preds : List MobileNetPrediction)
    (labels : List String) (topK : ℕ) (rand : String → ℚ) :
    List.Sorted (fun a b : ModelHelpers.Prediction => b.confidence ≤ a.confidence)
      (simulatePlantDiseaseFromMobileNet preds labels topK rand) ∧
    (simulatePlantDiseaseFromMobileNet preds labels topK rand).length ≤ topK ∧
    (simulatePlantDiseaseFromMobileNet preds labels topK rand).length ≤ labels.length := by
  refine ⟨?_, ?_, ?_⟩
  · have hs : List.Sorted confGE
        (sortByConfidenceDesc (normalizedDistribution preds labels rand)) :=
      List.sorted_insertionSort confGE _
    exact hs.sublist (List.take_sublist _ _)
  · unfold simulatePlantDiseaseFromMobileNet
    rw [List.length_take]
    exact min_le_left _ _
  · unfold simulatePlantDiseaseFromMobileNet sortByConfidenceDesc
    rw [List.length_take]
    refine le_trans (min_le_right _ _) ?_
    rw [(List.perm_insertionSort confGE _).length_eq, normalizedDistribution_eq,
      List.length_map]

/-- C6 (confirmed): saveDiagnosis puts the new diagnosis first, keeps at
most 100 records (the 99 most recent prior records, so the oldest beyond
the cap are evicted), and the retained prior records are unchanged and keep
their relative order. -/
theorem C6_saveDiagnosis_cap (d : DiagnosisResult) (existing : List DiagnosisResult) :
    Storage.saveDiagnosisLocal d existing = d :: existing.take 99 ∧
    (Storage.saveDiagnosisLocal d existing).length = min (existing.length + 1) 100 := by
  constructor
  · rfl
  · simp only [Storage.saveDiagnosisLocal, List.length_take, List.length_cons]
    omega

/-- C7 (counterexample): a preprocessing failure during image processing is
NOT papered over: the catch block surfaces it to the UI through the onError
callback. -/
theorem C7_preprocessing_error_counterexample :
    InferenceComponent.processImage
      (Except.error "Image preprocessing failed") (Except.ok []) none =
      InferenceComponent.ProcessOutcome.errorSurfaced "Image preprocessing failed" := rfl

/-- C7 (amended): a model LOADING failure is caught and leaves the
component in the ready state with no model, after which image processing
returns the hardcoded mock list (Early Blight 0.85, Healthy 0.12, Late
Blight 0.03) without surfacing an error; but a failure thrown while
processing an image (preprocessing or inference) is surfaced to the UI via
onError. -/
theorem C7_fallback_on_model_load_failure (msg url e : String)
    (valid : InferenceComponent.LoadedModel → Bool)
    (run run2 : Except String (List ModelHelpers.Prediction))
    (m : Option InferenceComponent.LoadedModel) :
    InferenceComponent.initializeModel (Except.error msg) valid =
      ⟨InferenceComponent.ModelStatus.ready, none⟩ ∧
    InferenceComponent.processImage (Except.ok url) run none =
      InferenceComponent.ProcessOutcome.results InferenceComponent.mockPredictions url ∧
    InferenceComponent.mockPredictions =
      [⟨"Early Blight", 0.85⟩, ⟨"Healthy", 0.12⟩, ⟨"Late Blight", 0.03⟩] ∧
    InferenceComponent.processImage (Except.error e) run2 m =
      InferenceComponent.ProcessOutcome.errorSurfaced e :=
  ⟨rfl, rfl, rfl, rfl⟩

/-- C8 (confirmed): validateImageFile accepts exactly the files whose MIME
type is image/jpeg, image/png or image/webp and whose size is at most
10 * 1024 * 1024 bytes, and handleFileSelect turns a rejected file into the
error banner without ever invoking the diagnosis pipeline callback. -/
theorem C8_validateImageFile_spec (file : ImageProcessing.File) :
    (ImageProcessing.validateImageFile file = true ↔
      ((file.mimeType = "image/jpeg" ∨ file.mimeType = "image/png" ∨
        file.mimeType = "image/webp") ∧ file.size ≤ 10 * 1024 * 1024)) ∧
    (ImageProcessing.handleFileSelect file =
      Except.error "Please select a valid image file (JPEG, PNG, WebP) under 10MB" ↔
        ImageProcessing.validateImageFile file = false) ∧
    (ImageProcessing.handleFileSelect file = Except.ok file ↔
      ImageProcessing.validateImageFile file = true) := by
  refine ⟨?_, ?_, ?_⟩
  · simp [ImageProcessing.validateImageFile]
  · unfold ImageProcessing.handleFileSelect
    split_ifs with h <;> simp [h]
  · unfold ImageProcessing.handleFileSelect
    split_ifs with h <;> simp [h]

/-- C9 (confirmed): for every diagnosis history, calculateMetrics satisfies
totalDiagnoses = healthyPlants + diseasedPlants, the diseaseFrequency
counts sum to totalDiagnoses, waterSaved = 5 * diseasedPlants and
pesticidesAvoided = 30 * diseasedPlants. -/
theorem C9_calculateMetrics_invariants (diagnoses : List DiagnosisResult) :
    (Storage.calculateMetrics diagnoses).totalDiagnoses =
      (Storage.calculateMetrics diagnoses).healthyPlants +
        (Storage.calculateMetrics diagnoses).diseasedPlants ∧
    (((Storage.calculateMetrics diagnoses).diseaseFrequency.map (fun p => p.2)).sum =
      (Storage.calculateMetrics diagnoses).totalDiagnoses) ∧
    (Storage.calculateMetrics diagnoses).waterSaved =
      5 * ((Storage.calculateMetrics diagnoses).diseasedPlants : ℚ) ∧
    (Storage.calculateMetrics diagnoses).pesticidesAvoided =
      30 * ((Storage.calculateMetrics diagnoses).diseasedPlants : ℚ) := by
  by_cases h : diagnoses.length = 0
  · simp [Storage.calculateMetrics, h]
  · have hle : (diagnoses.filter
        (fun d => d.topPrediction.className = "Healthy")).length ≤ diagnoses.length :=
      List.length_filter_le _ _
    simp only [Storage.calculateMetrics, if_neg h]
    refine ⟨by omega, ?_, by ring, by ring⟩
    rw [Storage.foldl_bump_sum]
    simp

/-- C10 (confirmed): the localStorage path of saveChatMessage appends the
new message at the end, keeps only the most recent 200 messages, and the
retained earlier messages are a suffix of the prior history in their prior
order. -/
theorem C10_saveChatMessage_append_cap (message : ChatMessage)
    (existing : List ChatMessage) :
    Storage.saveChatMessageLocal message existing =
      existing.drop (existing.length + 1 - 200) ++ [message] ∧
    (Storage.saveChatMessageLocal message existing).length =
      min (existing.length + 1) 200 := by
  have hlen : (existing ++ [message]).length = existing.length + 1 := by simp
  constructor
  · simp only [Storage.saveChatMessageLocal, hlen]
    exact List.drop_append_of_le_length (by omega)
  · simp only [Storage.saveChatMessageLocal, List.length_drop, hlen]
    omega
